import Mathlib

/-!
# kube-dashboard: cluster-status aggregation and pod lifecycle handlers

A shallow embedding of the HTTP handlers of `main.go`, `cluse.go` and `pod.go`.

* Go strings are `String`; Go `int` counters are `Nat` (a counter is bounded by the
  number of list elements held in memory, far below `2^63`, so no wrap-around occurs).
* A handler takes the behaviour of the remote control plane as a `Clientset` record
  (one field per client-go call the handlers make) and returns an `Outcome`: the HTTP
  response it writes together with the ordered log of the remote calls it issued.
* `c.Bind` is the router's request binding; its result is an input of the handler
  (`Except String _`, the error being the bind error's text).
* `time.Now().Format(time.RFC3339)` is the standard library; the call-time value and the
  formatter are parameters of `updatePod`.
-/

set_option autoImplicit false

namespace KubeDashboard

/-! ## Data model (the fields of the client-go types the handlers touch) -/

/-- One entry of `node.Status.Conditions` (`v1.NodeCondition`): `Type` and `Status`
(`Type` is reserved in Lean, so the field is `Type_`). -/
structure NodeCondition where
  Type_ : String
  Status : String
  deriving DecidableEq, Repr

/-- A `v1.Node`, reduced to `Status.Conditions`. -/
structure Node where
  Conditions : List NodeCondition
  deriving DecidableEq, Repr

/-- A `v1.Namespace`, reduced to its `Name`. -/
structure Namespace where
  Name : String
  deriving DecidableEq, Repr

/-- A `v1.Container`, reduced to `Name` and `Image`. -/
structure Container where
  Name : String
  Image : String
  deriving DecidableEq, Repr

/-- The `metav1.ObjectMeta` fields the handlers set. A Go map literal is the list of its
key/value pairs in source order; the zero value of a string is `""`, of a map `[]`. -/
structure ObjectMeta where
  Name : String := ""
  GenerateName : String := ""
  Namespace : String := ""
  Labels : List (String × String) := []
  Annotations : List (String × String) := []
  deriving DecidableEq, Repr

/-- A `v1.PodSpec`, reduced to `Containers` (zero value: no containers). -/
structure PodSpec where
  Containers : List Container := []
  deriving DecidableEq, Repr

/-- A `v1.Pod`: metadata and spec. -/
structure V1Pod where
  Meta : ObjectMeta := {}
  Spec : PodSpec := {}
  deriving DecidableEq, Repr

/-- Request body of the create handlers (`type Pod struct` of `main.go` and `pod.go`). -/
structure Pod where
  Name : String
  Namespace : String
  Image : String
  deriving DecidableEq, Repr

/-- Request body of the PUT handler of `pod.go` (`type Pod struct { Image string }`). -/
structure PodImage where
  Image : String
  deriving DecidableEq, Repr

/-- The `types.PatchType` values. -/
inductive PatchType where
  | JSONPatchType
  | MergePatchType
  | StrategicMergePatchType
  | ApplyPatchType
  deriving DecidableEq, Repr

/-- The data map of the cluster-status response. -/
structure ClusterSnapshot where
  version : String
  nodeCount : Nat
  nodeReadyCount : Nat
  namespaceCount : Nat
  namespaceNames : List String
  deriving DecidableEq, Repr

/-! ## The remote control plane and HTTP responses -/

/-- A remote call issued through the clientset, with its arguments. -/
inductive RemoteCall where
  | ServerVersion
  | NodesList
  | NamespacesList
  | PodsCreate (ns : String) (pod : V1Pod)
  | PodsPatch (ns : String) (name : String) (pt : PatchType) (data : String)
  | PodsDelete (ns : String) (name : String)
  deriving DecidableEq, Repr

/-- Behaviour of the remote control plane for one request: the result of each call,
`Except.error msg` standing for a Go `err` with `err.Error() = msg`. -/
structure Clientset where
  ServerVersion : Except String String
  NodesList : Except String (List Node)
  NamespacesList : Except String (List Namespace)
  PodsCreate : String → V1Pod → Except String V1Pod
  PodsPatch : String → String → PatchType → String → Except String V1Pod
  PodsDelete : String → String → Except String Unit

/-- Body written by a handler. -/
inductive Body where
  | text (s : String)
  | snapshot (s : ClusterSnapshot)
  | pod (p : V1Pod)
  | none
  deriving DecidableEq, Repr

/-- An HTTP response: status code and body. -/
structure Response where
  status : Nat
  body : Body
  deriving DecidableEq, Repr

/-- What a handler run produces: the response and the remote calls issued, in order. -/
structure Outcome where
  resp : Response
  calls : List RemoteCall
  deriving DecidableEq, Repr

def StatusOK : Nat := 200
def StatusCreated : Nat := 201
def StatusNoContent : Nat := 204
def StatusBadRequest : Nat := 400
def StatusInternalServerError : Nat := 500

/-! ## `getClusterStatus` (`main.go`) and the status handler of `cluse.go` -/

/-- The readiness loop of `main.go` lines 185-193 (identical at `cluse.go` 43-51):
`nodeReadyCount := 0`, then for every node and every condition of it, increment when
`condition.Type == "Ready" && condition.Status == "True"`. -/
def nodeReadyCount (nodes : List Node) : Nat :=
  nodes.foldl
    (fun cnt node =>
      node.Conditions.foldl
        (fun cnt condition =>
          if condition.Type_ == "Ready" && condition.Status == "True" then cnt + 1 else cnt)
        cnt)
    0

/-- The name loop of `main.go` lines 203-208 (identical at `cluse.go` 61-66):
`namespaceNames := make([]string, 0)`, then append every namespace's `Name`. -/
def namespaceNames (namespaces : List Namespace) : List String :=
  namespaces.foldl (fun names ns => names ++ [ns.Name]) []

/-- Handler `getClusterStatus` of `main.go`. -/
def getClusterStatus (clientset : Clientset) : Outcome :=
  match clientset.ServerVersion with
  | .error err => ⟨⟨StatusInternalServerError, .text err⟩, [.ServerVersion]⟩
  | .ok version =>
    match clientset.NodesList with
    | .error err => ⟨⟨StatusInternalServerError, .text err⟩, [.ServerVersion, .NodesList]⟩
    | .ok nodes =>
      let nodeCount := nodes.length
      let nodeReadyCount := nodeReadyCount nodes
      match clientset.NamespacesList with
      | .error err =>
        ⟨⟨StatusInternalServerError, .text err⟩, [.ServerVersion, .NodesList, .NamespacesList]⟩
      | .ok namespaces =>
        let namespaceCount := namespaces.length
        let namespaceNames := namespaceNames namespaces
        ⟨⟨StatusOK, .snapshot ⟨version, nodeCount, nodeReadyCount, namespaceCount, namespaceNames⟩⟩,
          [.ServerVersion, .NodesList, .NamespacesList]⟩

/-- The `GET /api/cluster/status` closure of `cluse.go`, statement for statement the same
as `getClusterStatus`. -/
def cluseClusterStatus (clientset : Clientset) : Outcome :=
  match clientset.ServerVersion with
  | .error err => ⟨⟨StatusInternalServerError, .text err⟩, [.ServerVersion]⟩
  | .ok version =>
    match clientset.NodesList with
    | .error err => ⟨⟨StatusInternalServerError, .text err⟩, [.ServerVersion, .NodesList]⟩
    | .ok nodes =>
      let nodeCount := nodes.length
      let nodeReadyCount := nodeReadyCount nodes
      match clientset.NamespacesList with
      | .error err =>
        ⟨⟨StatusInternalServerError, .text err⟩, [.ServerVersion, .NodesList, .NamespacesList]⟩
      | .ok namespaces =>
        let namespaceCount := namespaces.length
        let namespaceNames := namespaceNames namespaces
        ⟨⟨StatusOK, .snapshot ⟨version, nodeCount, nodeReadyCount, namespaceCount, namespaceNames⟩⟩,
          [.ServerVersion, .NodesList, .NamespacesList]⟩

/-! ## Pod handlers of `main.go` -/

/-- Handler `createPod` of `main.go`: bind the body, build the pod object from it, call
`Pods(pod.Namespace).Create`, answer 201 with the created pod or 500 with `err.Error()`. -/
def createPod (clientset : Clientset) (bind : Except String Pod) : Outcome :=
  match bind with
  | .error err => ⟨⟨StatusBadRequest, .text err⟩, []⟩
  | .ok pod =>
    let k8sPod : V1Pod :=
      { Meta := { Name := pod.Name, Namespace := pod.Namespace },
        Spec := { Containers := [{ Name := pod.Name, Image := pod.Image }] } }
    match clientset.PodsCreate pod.Namespace k8sPod with
    | .error err =>
      ⟨⟨StatusInternalServerError, .text err⟩, [.PodsCreate pod.Namespace k8sPod]⟩
    | .ok result => ⟨⟨StatusCreated, .pod result⟩, [.PodsCreate pod.Namespace k8sPod]⟩

/-- The pod object built by `updatePod` (`main.go` lines 108-153); `createdAt` is
`time.Now().Format(time.RFC3339)`, with the clock reading `now` and the formatter
`rfc3339` as parameters. The `Spec` block is commented out in the source. -/
def updatePodObject {Time : Type} (rfc3339 : Time → String) (now : Time) (pod : Pod) : V1Pod :=
  { Meta :=
      { GenerateName := pod.Name ++ "-",
        Namespace := pod.Namespace,
        Labels := [("app", pod.Name), ("role", "web")],
        Annotations := [("createdBy", "Bing"), ("createdAt", rfc3339 now)] } }

/-- Handler `updatePod` of `main.go`: bind the body, build the generate-name pod object,
call `Pods(pod.Namespace).Create`, answer 201 with the result or 500 with `err.Error()`. -/
def updatePod {Time : Type} (rfc3339 : Time → String) (now : Time) (clientset : Clientset)
    (bind : Except String Pod) : Outcome :=
  match bind with
  | .error err => ⟨⟨StatusBadRequest, .text err⟩, []⟩
  | .ok pod =>
    let k8sPod := updatePodObject rfc3339 now pod
    match clientset.PodsCreate pod.Namespace k8sPod with
    | .error err =>
      ⟨⟨StatusInternalServerError, .text err⟩, [.PodsCreate pod.Namespace k8sPod]⟩
    | .ok result => ⟨⟨StatusCreated, .pod result⟩, [.PodsCreate pod.Namespace k8sPod]⟩

/-! ## Pod handlers of `pod.go` -/

/-- The `POST /api/pods` closure of `pod.go`: as `createPod`, but the `Spec` block of the
pod object is commented out there, so only `Name` and `Namespace` are set. -/
def podPostHandler (clientset : Clientset) (bind : Except String Pod) : Outcome :=
  match bind with
  | .error err => ⟨⟨StatusBadRequest, .text err⟩, []⟩
  | .ok pod =>
    let k8sPod : V1Pod := { Meta := { Name := pod.Name, Namespace := pod.Namespace } }
    match clientset.PodsCreate pod.Namespace k8sPod with
    | .error err =>
      ⟨⟨StatusInternalServerError, .text err⟩, [.PodsCreate pod.Namespace k8sPod]⟩
    | .ok result => ⟨⟨StatusCreated, .pod result⟩, [.PodsCreate pod.Namespace k8sPod]⟩

/-- The patch text of the PUT handler of `pod.go`, that is
`fmt.Sprintf` of the template (spec, containers, one entry with name and image) with two
`%s` verbs: the arguments are inserted as they are. -/
def patchData (name image : String) : String :=
  "\x7b\"spec\":\x7b\"containers\":[\x7b\"name\":\"" ++ name ++ "\",\"image\":\"" ++ image
    ++ "\"\x7d]\x7d\x7d"

/-- The `PUT /api/pods/:name/:namespace` closure of `pod.go`: path parameters `name` and
`namespace`, body `{image}`; builds `patchData` and calls `Pods(namespace).Patch` with the
strategic-merge patch type (`namespace` is reserved in Lean: `ns`). -/
def podPutHandler (clientset : Clientset) (name ns : String)
    (bind : Except String PodImage) : Outcome :=
  match bind with
  | .error err => ⟨⟨StatusBadRequest, .text err⟩, []⟩
  | .ok pod =>
    let patchBytes := patchData name pod.Image
    let patchType := PatchType.StrategicMergePatchType
    match clientset.PodsPatch ns name patchType patchBytes with
    | .error err =>
      ⟨⟨StatusInternalServerError, .text err⟩, [.PodsPatch ns name patchType patchBytes]⟩
    | .ok result => ⟨⟨StatusOK, .pod result⟩, [.PodsPatch ns name patchType patchBytes]⟩

/-- The `DELETE /api/pods/:name/:namespace` closure of `pod.go`: one `Pods(namespace).Delete`
call; 500 with `err.Error()` on failure, otherwise 204 without a body. -/
def podDeleteHandler (clientset : Clientset) (name ns : String) : Outcome :=
  match clientset.PodsDelete ns name with
  | .error err => ⟨⟨StatusInternalServerError, .text err⟩, [.PodsDelete ns name]⟩
  | .ok _ => ⟨⟨StatusNoContent, .none⟩, [.PodsDelete ns name]⟩

/-! ## Specification vocabulary

Well-formedness of a patch text is decided by a JSON decoder; readiness of a node and the
intended patch document follow the wording of the specification. -/

/-- A JSON value (RFC 8259); a number keeps its lexeme, an object its members in order. -/
inductive JValue where
  | null
  | bool (b : Bool)
  | num (lexeme : String)
  | str (s : String)
  | arr (items : List JValue)
  | obj (members : List (String × JValue))

/-- Skip JSON whitespace. -/
def skipWs : List Char → List Char
  | [] => []
  | c :: rest => if c = ' ' ∨ c = '\t' ∨ c = '\n' ∨ c = '\r' then skipWs rest else c :: rest

/-- Value of one hexadecimal digit. -/
def hexDigit (c : Char) : Option Nat :=
  if '0' ≤ c ∧ c ≤ '9' then some (c.toNat - '0'.toNat)
  else if 'a' ≤ c ∧ c ≤ 'f' then some (c.toNat - 'a'.toNat + 10)
  else if 'A' ≤ c ∧ c ≤ 'F' then some (c.toNat - 'A'.toNat + 10)
  else none

/-- The character of a four-digit unicode escape. -/
def hex4 (a b c d : Char) : Option Char :=
  match hexDigit a, hexDigit b, hexDigit c, hexDigit d with
  | some w, some x, some y, some z => some (Char.ofNat (((w * 16 + x) * 16 + y) * 16 + z))
  | _, _, _, _ => none

/-- The character denoted by a one-letter escape. -/
def unescape (e : Char) : Option Char :=
  if e = '"' then some '"'
  else if e = '\\' then some '\\'
  else if e = '/' then some '/'
  else if e = 'b' then some (Char.ofNat 8)
  else if e = 'f' then some (Char.ofNat 12)
  else if e = 'n' then some '\n'
  else if e = 'r' then some '\r'
  else if e = 't' then some '\t'
  else none

/-- Read a string literal after its opening quote: the decoded characters and the input
left after the closing quote. A raw control character or a bad escape is an error. -/
def scanString : List Char → Option (List Char × List Char)
  | [] => none
  | c :: rest =>
    if c = '"' then some ([], rest)
    else if c = '\\' then
      match rest with
      | [] => none
      | e :: rest2 =>
        if e = 'u' then
          match rest2 with
          | a :: b :: c2 :: d :: rest3 =>
            match hex4 a b c2 d, scanString rest3 with
            | some ch, some (s, tl) => some (ch :: s, tl)
            | _, _ => none
          | _ => none
        else
          match unescape e, scanString rest2 with
          | some ch, some (s, tl) => some (ch :: s, tl)
          | _, _ => none
    else if c.toNat < 32 then none
    else
      match scanString rest with
      | some (s, tl) => some (c :: s, tl)
      | none => none

/-- Read the elements of a non-empty array up to the closing bracket, `pv` reading one
value; the counter bounds the number of elements. -/
def parseElems (pv : List Char → Option (JValue × List Char)) :
    Nat → List Char → Option (List JValue × List Char)
  | 0, _ => none
  | n + 1, cs =>
    match pv cs with
    | none => none
    | some (v, rest) =>
      match skipWs rest with
      | [] => none
      | c :: rest2 =>
        if c = ',' then
          match parseElems pv n rest2 with
          | some (vs, tl) => some (v :: vs, tl)
          | none => none
        else if c = ']' then some ([v], rest2)
        else none

/-- Read the members of a non-empty object up to the closing brace, `pv` reading one
value; the counter bounds the number of members. -/
def parseMembers (pv : List Char → Option (JValue × List Char)) :
    Nat → List Char → Option (List (String × JValue) × List Char)
  | 0, _ => none
  | n + 1, cs =>
    match skipWs cs with
    | [] => none
    | q :: afterQ =>
      if q = '"' then
        match scanString afterQ with
        | none => none
        | some (key, afterKey) =>
          match skipWs afterKey with
          | [] => none
          | colon :: afterColon =>
            if colon = ':' then
              match pv afterColon with
              | none => none
              | some (v, rest) =>
                match skipWs rest with
                | [] => none
                | c :: rest2 =>
                  if c = ',' then
                    match parseMembers pv n rest2 with
                    | some (ms, tl) => some ((String.mk key, v) :: ms, tl)
                    | none => none
                  else if c = '}' then some ([(String.mk key, v)], rest2)
                  else none
            else none
      else none

/-- Split off the leading decimal digits. -/
def takeDigits : List Char → List Char × List Char
  | [] => ([], [])
  | c :: rest =>
    if c.isDigit then ((takeDigits rest).1.cons c, (takeDigits rest).2) else ([], c :: rest)

/-- Read a JSON number: sign, integer part without leading zero, fraction, exponent. -/
def scanNumber (cs : List Char) : Option (List Char × List Char) :=
  let signed : List Char × List Char :=
    match cs with
    | [] => ([], [])
    | c :: rest => if c = '-' then (['-'], rest) else ([], c :: rest)
  let whole := takeDigits signed.2
  if whole.1 = [] ∨ (whole.1.head? = some '0' ∧ 1 < whole.1.length) then none
  else
    let frac : Option (List Char × List Char) :=
      match whole.2 with
      | [] => some ([], [])
      | c :: rest =>
        if c = '.' then
          (if (takeDigits rest).1 = [] then none
           else some ('.' :: (takeDigits rest).1, (takeDigits rest).2))
        else some ([], c :: rest)
    match frac with
    | none => none
    | some (fs, afterFrac) =>
      match afterFrac with
      | [] => some (signed.1 ++ whole.1 ++ fs, [])
      | e :: rest =>
        if e = 'e' ∨ e = 'E' then
          let sgn : List Char × List Char :=
            match rest with
            | [] => ([], [])
            | c :: r => if c = '+' ∨ c = '-' then ([c], r) else ([], c :: r)
          if (takeDigits sgn.2).1 = [] then none
          else some (signed.1 ++ whole.1 ++ fs ++ e :: sgn.1 ++ (takeDigits sgn.2).1,
                     (takeDigits sgn.2).2)
        else some (signed.1 ++ whole.1 ++ fs, e :: rest)

/-- Read one JSON value; the fuel bounds the nesting depth. -/
def parseValue : Nat → List Char → Option (JValue × List Char)
  | 0, _ => none
  | fuel + 1, cs =>
    match skipWs cs with
    | [] => none
    | c :: rest =>
      if c = '"' then
        match scanString rest with
        | some (s, tl) => some (.str (String.mk s), tl)
        | none => none
      else if c = '[' then
        match skipWs rest with
        | [] => none
        | d :: rest2 =>
          if d = ']' then some (.arr [], rest2)
          else
            match parseElems (parseValue fuel) fuel rest with
            | some (vs, tl) => some (.arr vs, tl)
            | none => none
      else if c = '{' then
        match skipWs rest with
        | [] => none
        | d :: rest2 =>
          if d = '}' then some (.obj [], rest2)
          else
            match parseMembers (parseValue fuel) fuel rest with
            | some (ms, tl) => some (.obj ms, tl)
            | none => none
      else
        match c :: rest with
        | 't' :: 'r' :: 'u' :: 'e' :: tl => some (.bool true, tl)
        | 'f' :: 'a' :: 'l' :: 's' :: 'e' :: tl => some (.bool false, tl)
        | 'n' :: 'u' :: 'l' :: 'l' :: tl => some (.null, tl)
        | other =>
          match scanNumber other with
          | some (lx, tl) => some (.num (String.mk lx), tl)
          | none => none

/-- Decode a text as one JSON value followed only by whitespace; `none` when the text is
not well-formed JSON. The fuel (length of the text plus one) exceeds every nesting depth and
element count the text can hold. -/
def decodeJSON (text : String) : Option JValue :=
  match parseValue (text.data.length + 1) text.data with
  | none => none
  | some (v, rest) => if skipWs rest = [] then some v else none

/-- The document the specification describes for `PatchImage`: only `spec.containers`,
with one entry carrying the given name and image. -/
def intendedPatch (name image : String) : JValue :=
  .obj [("spec", .obj [("containers", .arr [.obj [("name", .str name), ("image", .str image)]])])]

/-- A character that a JSON string literal may hold unescaped: not the double quote, not
the backslash, not a control character. -/
def plainChar (c : Char) : Bool := c != '"' && c != '\\' && decide (32 ≤ c.toNat)

/-- A string made only of characters that need no JSON escape. -/
def plainText (s : String) : Bool := s.data.all plainChar

/-- The test of the readiness loop: `Type == "Ready" && Status == "True"`. -/
def isReadyTrue (condition : NodeCondition) : Bool :=
  condition.Type_ == "Ready" && condition.Status == "True"

/-- Specification: a node is ready iff at least one of its conditions is Ready/True. -/
def nodeIsReady (node : Node) : Bool :=
  node.Conditions.any isReadyTrue

/-- Specification: the number of ready nodes of a list (each node counted once). -/
def readyNodes (nodes : List Node) : Nat :=
  nodes.countP nodeIsReady

/-- Number of Ready/True conditions of one node. -/
def readyTrueConditions (node : Node) : Nat :=
  node.Conditions.countP isReadyTrue

/-! ## Sample remotes and inputs -/

/-- A remote that accepts every write (a create or patch answers with a pod of the given
name and namespace) and reports an empty cluster. -/
def acceptAll : Clientset where
  ServerVersion := .ok "v1.28.0"
  NodesList := .ok []
  NamespacesList := .ok []
  PodsCreate := fun ns pod => .ok { pod with Meta := { pod.Meta with Namespace := ns } }
  PodsPatch := fun ns name _ _ => .ok { Meta := { Name := name, Namespace := ns } }
  PodsDelete := fun _ _ => .ok ()

/-- A remote on which no pod exists: every delete and patch is answered "not found". -/
def noPods : Clientset where
  ServerVersion := .ok "v1.28.0"
  NodesList := .ok []
  NamespacesList := .ok []
  PodsCreate := fun ns pod => .ok { pod with Meta := { pod.Meta with Namespace := ns } }
  PodsPatch := fun _ name _ _ => .error ("pods \"" ++ name ++ "\" not found")
  PodsDelete := fun _ name => .error ("pods \"" ++ name ++ "\" not found")

/-- A node whose condition list carries the Ready/True condition twice. -/
def twiceReadyNode : Node :=
  ⟨[⟨"Ready", "True"⟩, ⟨"Ready", "True"⟩]⟩

/-- A remote whose node list is the single node `twiceReadyNode`. -/
def twiceReadyCluster : Clientset :=
  { acceptAll with NodesList := .ok [twiceReadyNode] }

/-- A remote whose version and node fetches succeed and whose namespace fetch fails. -/
def namespacesDown : Clientset :=
  { acceptAll with
    NodesList := .ok [⟨[⟨"Ready", "True"⟩]⟩]
    NamespacesList := .error "namespaces is forbidden" }

/-- The node list of the specification's scenario: Ready:True, Ready:False, Ready:True. -/
def scenarioNodes : List Node :=
  [⟨[⟨"Ready", "True"⟩]⟩, ⟨[⟨"Ready", "False"⟩]⟩, ⟨[⟨"Ready", "True"⟩]⟩]

/-- The namespace list of the specification's scenario. -/
def scenarioNamespaces : List Namespace :=
  [⟨"default"⟩, ⟨"kube-system"⟩]

/-! ## Lemmas on the two loops of the status handler -/

/-- The inner loop adds the number of Ready/True conditions to the running counter. -/
theorem inner_loop_adds (conds : List NodeCondition) (k : Nat) :
    conds.foldl
        (fun cnt condition =>
          if condition.Type_ == "Ready" && condition.Status == "True" then cnt + 1 else cnt) k
      = k + conds.countP isReadyTrue := by
  induction conds generalizing k with
  | nil => simp
  | cons c rest ih =>
    rw [List.foldl_cons, ih, List.countP_cons]
    by_cases h : isReadyTrue c = true
    · have h2 : (c.Type_ == "Ready" && c.Status == "True") = true := h
      simp only [h2, h, if_true]
      omega
    · have h1 : isReadyTrue c = false := by simpa using h
      have h2 : (c.Type_ == "Ready" && c.Status == "True") = false := h1
      simp only [h2, h1, Bool.false_eq_true, if_false]
      omega

/-- The outer loop adds, node after node, the number of Ready/True conditions. -/
theorem outer_loop_adds (nodes : List Node) (k : Nat) :
    nodes.foldl
        (fun cnt node =>
          node.Conditions.foldl
            (fun cnt condition =>
              if condition.Type_ == "Ready" && condition.Status == "True" then cnt + 1 else cnt)
            cnt) k
      = k + (nodes.map readyTrueConditions).sum := by
  induction nodes generalizing k with
  | nil => simp
  | cons n rest ih =>
    rw [List.foldl_cons, ih, inner_loop_adds, List.map_cons, List.sum_cons]
    unfold readyTrueConditions
    omega

/-- The counter of the readiness loop is the total number of Ready/True conditions. -/
theorem nodeReadyCount_eq_sum (nodes : List Node) :
    nodeReadyCount nodes = (nodes.map readyTrueConditions).sum := by
  unfold nodeReadyCount
  rw [outer_loop_adds]
  omega

/-- A node with at most one Ready/True condition contributes one exactly when it is ready. -/
theorem readyTrueConditions_of_le_one (node : Node) (h : readyTrueConditions node ≤ 1) :
    readyTrueConditions node = if nodeIsReady node then 1 else 0 := by
  unfold readyTrueConditions nodeIsReady at *
  by_cases hr : node.Conditions.any isReadyTrue = true
  · have hpos : 0 < node.Conditions.countP isReadyTrue := by
      rw [List.countP_pos_iff]
      rw [List.any_eq_true] at hr
      exact hr
    simp only [hr, if_true]
    omega
  · have hz : node.Conditions.countP isReadyTrue = 0 := by
      rw [List.countP_eq_zero]
      intro c hc hp
      exact hr (List.any_eq_true.mpr ⟨c, hc, hp⟩)
    simp only [hr, if_false]
    exact hz

/-- When no node repeats the Ready/True condition, the total is the number of ready nodes. -/
theorem sum_eq_readyNodes (nodes : List Node)
    (h : ∀ node ∈ nodes, readyTrueConditions node ≤ 1) :
    (nodes.map readyTrueConditions).sum = readyNodes nodes := by
  induction nodes with
  | nil => rfl
  | cons n rest ih =>
    have hn := readyTrueConditions_of_le_one n (h n (List.mem_cons_self n rest))
    have hrest := ih (fun m hm => h m (List.mem_cons_of_mem n hm))
    unfold readyNodes at *
    rw [List.map_cons, List.sum_cons, hrest, hn, List.countP_cons]
    omega

/-- The name loop yields the names in list order. -/
theorem names_loop (namespaces : List Namespace) (acc : List String) :
    namespaces.foldl (fun names ns => names ++ [ns.Name]) acc
      = acc ++ namespaces.map (fun ns => ns.Name) := by
  induction namespaces generalizing acc with
  | nil => simp
  | cons n rest ih => rw [List.foldl_cons, ih]; simp

/-- The name loop computes the map of `Name` over the list. -/
theorem namespaceNames_eq_map (namespaces : List Namespace) :
    namespaceNames namespaces = namespaces.map (fun ns => ns.Name) := by
  unfold namespaceNames
  rw [names_loop]
  rfl

/-! ## Lemmas on the status handler, one per exit -/

/-- The closure of `cluse.go` and `getClusterStatus` of `main.go` are the same function. -/
theorem cluse_eq_main (cs : Clientset) : cluseClusterStatus cs = getClusterStatus cs := rfl

/-- Exit at the version fetch. -/
theorem status_version_error (cs : Clientset) (msg : String)
    (h : cs.ServerVersion = .error msg) :
    getClusterStatus cs = ⟨⟨StatusInternalServerError, .text msg⟩, [.ServerVersion]⟩ := by
  unfold getClusterStatus
  simp only [h]

/-- Exit at the node fetch. -/
theorem status_nodes_error (cs : Clientset) (v msg : String)
    (hv : cs.ServerVersion = .ok v) (h : cs.NodesList = .error msg) :
    getClusterStatus cs
      = ⟨⟨StatusInternalServerError, .text msg⟩, [.ServerVersion, .NodesList]⟩ := by
  unfold getClusterStatus
  simp only [hv, h]

/-- Exit at the namespace fetch. -/
theorem status_namespaces_error (cs : Clientset) (v : String) (nodes : List Node)
    (msg : String) (hv : cs.ServerVersion = .ok v) (hn : cs.NodesList = .ok nodes)
    (h : cs.NamespacesList = .error msg) :
    getClusterStatus cs
      = ⟨⟨StatusInternalServerError, .text msg⟩,
          [.ServerVersion, .NodesList, .NamespacesList]⟩ := by
  unfold getClusterStatus
  simp only [hv, hn, h]

/-- The normal exit: the snapshot assembled from the three results. -/
theorem status_ok (cs : Clientset) (v : String) (nodes : List Node)
    (nss : List Namespace) (hv : cs.ServerVersion = .ok v) (hn : cs.NodesList = .ok nodes)
    (h : cs.NamespacesList = .ok nss) :
    getClusterStatus cs
      = ⟨⟨StatusOK, .snapshot ⟨v, nodes.length, nodeReadyCount nodes, nss.length,
            namespaceNames nss⟩⟩,
          [.ServerVersion, .NodesList, .NamespacesList]⟩ := by
  unfold getClusterStatus
  simp only [hv, hn, h]

/-! ## Claims on the cluster-status handler -/

/-- C1 (the code departs from the claim): on a node list holding one node that carries the
Ready/True condition twice, both status handlers report `nodeReadyCount = 2`, while the
number of nodes having a Ready/True condition is 1. -/
theorem twice_ready_node_counted_twice :
    (getClusterStatus twiceReadyCluster).resp
        = ⟨200, .snapshot ⟨"v1.28.0", 1, 2, 0, []⟩⟩ ∧
      (cluseClusterStatus twiceReadyCluster).resp
        = ⟨200, .snapshot ⟨"v1.28.0", 1, 2, 0, []⟩⟩ ∧
      nodeReadyCount [twiceReadyNode] = 2 ∧
      readyNodes [twiceReadyNode] = 1 := by
  refine ⟨?_, ?_, ?_, ?_⟩ <;> decide

/-- C2 (the code departs from the claim): the snapshot built for a node list holding one
node that carries the Ready/True condition twice has `nodeCount = 1` and
`nodeReadyCount = 2`, so `nodeReadyCount ≤ nodeCount` fails. -/
theorem ready_count_exceeds_node_count :
    ∃ s : ClusterSnapshot,
      (getClusterStatus twiceReadyCluster).resp.body = .snapshot s ∧
      (cluseClusterStatus twiceReadyCluster).resp.body = .snapshot s ∧
      s.nodeCount = [twiceReadyNode].length ∧
      ¬ (s.nodeReadyCount ≤ s.nodeCount) :=
  ⟨⟨"v1.28.0", 1, 2, 0, []⟩, by decide, by decide, by decide, by decide⟩

/-- C3: whatever namespace list the remote returns, the snapshot's `namespaceNames` is the
sequence of the namespaces' names in the returned order and `namespaceCount` is its length;
the namespaces default, kube-system give count 2 and names default, kube-system. -/
theorem namespace_names_in_remote_order (version : String) (nodes : List Node)
    (namespaces : List Namespace) (create : String → V1Pod → Except String V1Pod)
    (patch : String → String → PatchType → String → Except String V1Pod)
    (delete : String → String → Except String Unit) :
    (getClusterStatus ⟨.ok version, .ok nodes, .ok namespaces, create, patch, delete⟩).resp
        = ⟨200, .snapshot ⟨version, nodes.length, nodeReadyCount nodes,
            (namespaces.map (fun ns => ns.Name)).length, namespaces.map (fun ns => ns.Name)⟩⟩ ∧
      (cluseClusterStatus ⟨.ok version, .ok nodes, .ok namespaces, create, patch, delete⟩).resp
        = ⟨200, .snapshot ⟨version, nodes.length, nodeReadyCount nodes,
            (namespaces.map (fun ns => ns.Name)).length, namespaces.map (fun ns => ns.Name)⟩⟩ ∧
      (getClusterStatus
          ⟨.ok version, .ok nodes, .ok scenarioNamespaces, create, patch, delete⟩).resp
        = ⟨200, .snapshot ⟨version, nodes.length, nodeReadyCount nodes, 2,
            ["default", "kube-system"]⟩⟩ := by
  refine ⟨?_, ?_, ?_⟩
  · rw [status_ok _ version nodes namespaces rfl rfl rfl, namespaceNames_eq_map,
      List.length_map]
    rfl
  · rw [cluse_eq_main, status_ok _ version nodes namespaces rfl rfl rfl,
      namespaceNames_eq_map, List.length_map]
    rfl
  · rw [status_ok _ version nodes scenarioNamespaces rfl rfl rfl]
    rfl

/-- C4: the status handler answers 200 with a snapshot exactly when the version, node and
namespace fetches all succeed; when the version fetch fails, when the node fetch fails
after it, or when the namespace fetch fails after both, the answer is 500 carrying that
failure's message as its text body, so no snapshot field is returned. The same holds for
the closure of `cluse.go`. -/
theorem status_all_or_nothing (cs : Clientset) :
    ((∃ s, (getClusterStatus cs).resp = ⟨200, .snapshot s⟩) ↔
        ∃ v nodes nss,
          cs.ServerVersion = .ok v ∧ cs.NodesList = .ok nodes ∧ cs.NamespacesList = .ok nss) ∧
      (∀ msg, cs.ServerVersion = .error msg →
        (getClusterStatus cs).resp = ⟨500, .text msg⟩) ∧
      (∀ v msg, cs.ServerVersion = .ok v → cs.NodesList = .error msg →
        (getClusterStatus cs).resp = ⟨500, .text msg⟩) ∧
      (∀ v nodes msg, cs.ServerVersion = .ok v → cs.NodesList = .ok nodes →
        cs.NamespacesList = .error msg →
        (getClusterStatus cs).resp = ⟨500, .text msg⟩) ∧
      ((∃ s, (getClusterStatus cs).resp = ⟨200, .snapshot s⟩) ∨
        ∃ msg, (getClusterStatus cs).resp = ⟨500, .text msg⟩) ∧
      cluseClusterStatus cs = getClusterStatus cs := by
  refine ⟨?_, ?_, ?_, ?_, ?_, rfl⟩
  · constructor
    · rintro ⟨s, hs⟩
      cases hv : cs.ServerVersion with
      | error m => rw [status_version_error cs m hv] at hs; cases hs
      | ok v =>
        cases hn : cs.NodesList with
        | error m => rw [status_nodes_error cs v m hv hn] at hs; cases hs
        | ok nodes =>
          cases hns : cs.NamespacesList with
          | error m => rw [status_namespaces_error cs v nodes m hv hn hns] at hs; cases hs
          | ok nss => exact ⟨v, nodes, nss, rfl, rfl, rfl⟩
    · rintro ⟨v, nodes, nss, hv, hn, hns⟩
      rw [status_ok cs v nodes nss hv hn hns]
      exact ⟨_, rfl⟩
  · intro msg h
    rw [status_version_error cs msg h]; rfl
  · intro v msg hv h
    rw [status_nodes_error cs v msg hv h]; rfl
  · intro v nodes msg hv hn h
    rw [status_namespaces_error cs v nodes msg hv hn h]; rfl
  · cases hv : cs.ServerVersion with
    | error m => right; rw [status_version_error cs m hv]; exact ⟨m, rfl⟩
    | ok v =>
      cases hn : cs.NodesList with
      | error m => right; rw [status_nodes_error cs v m hv hn]; exact ⟨m, rfl⟩
      | ok nodes =>
        cases hns : cs.NamespacesList with
        | error m => right; rw [status_namespaces_error cs v nodes m hv hn hns]; exact ⟨m, rfl⟩
        | ok nss => left; rw [status_ok cs v nodes nss hv hn hns]; exact ⟨_, rfl⟩

/-- Witness for C4: on a remote whose namespace fetch fails after the version and node
fetches succeeded, the answer is 500 with the namespace failure's message. -/
theorem status_all_or_nothing_witness :
    namespacesDown.ServerVersion = .ok "v1.28.0" ∧
      namespacesDown.NodesList = .ok [⟨[⟨"Ready", "True"⟩]⟩] ∧
      namespacesDown.NamespacesList = .error "namespaces is forbidden" ∧
      (getClusterStatus namespacesDown).resp = ⟨500, .text "namespaces is forbidden"⟩ :=
  ⟨rfl, rfl, rfl,
    (status_all_or_nothing namespacesDown).2.2.2.1 "v1.28.0" [⟨[⟨"Ready", "True"⟩]⟩]
      "namespaces is forbidden" rfl rfl rfl⟩

/-- C10: the readiness loop counts conditions: for every node list `nodeReadyCount` is the
total number of Ready/True conditions over all nodes; when no node carries more than one
such condition it is the number of ready nodes and at most the node count; the nodes
Ready:True, Ready:False, Ready:True give `nodeCount = 3` and `nodeReadyCount = 2`. -/
theorem ready_loop_counts_conditions (nodes : List Node) :
    nodeReadyCount nodes = (nodes.map readyTrueConditions).sum ∧
      ((∀ node ∈ nodes, readyTrueConditions node ≤ 1) →
        nodeReadyCount nodes = readyNodes nodes ∧ nodeReadyCount nodes ≤ nodes.length) ∧
      (getClusterStatus { acceptAll with NodesList := .ok scenarioNodes }).resp
        = ⟨200, .snapshot ⟨"v1.28.0", 3, 2, 0, []⟩⟩ := by
  refine ⟨nodeReadyCount_eq_sum nodes, ?_, by decide⟩
  intro h
  have heq : nodeReadyCount nodes = readyNodes nodes := by
    rw [nodeReadyCount_eq_sum, sum_eq_readyNodes nodes h]
  refine ⟨heq, ?_⟩
  rw [heq]
  exact List.countP_le_length _

/-- Witness for C10: the scenario's nodes carry at most one Ready/True condition each, and
the loop's count there is the number of ready nodes. -/
theorem ready_loop_counts_conditions_witness :
    (∀ node ∈ scenarioNodes, readyTrueConditions node ≤ 1) ∧
      nodeReadyCount scenarioNodes = readyNodes scenarioNodes ∧
      nodeReadyCount scenarioNodes ≤ scenarioNodes.length :=
  ⟨by decide, (ready_loop_counts_conditions scenarioNodes).2.1 (by decide)⟩

/-! ## Decoding the patch text -/

/-- A closing quote ends the literal at once. -/
theorem scanString_quote (rest : List Char) : scanString ('"' :: rest) = some ([], rest) := by
  rw [scanString.eq_def]
  simp

/-- Characters that need no escape are read as they are, up to the closing quote. -/
theorem scanString_plain (s rest : List Char) (h : s.all plainChar = true) :
    scanString (s ++ '"' :: rest) = some (s, rest) := by
  induction s with
  | nil => exact scanString_quote rest
  | cons c tl ih =>
    rw [List.all_cons, Bool.and_eq_true] at h
    obtain ⟨hc, htl⟩ := h
    unfold plainChar at hc
    simp only [Bool.and_eq_true, bne_iff_ne, ne_eq, decide_eq_true_eq] at hc
    obtain ⟨⟨h1, h2⟩, h3⟩ := hc
    have h4 : ¬ c.toNat < 32 := by omega
    rw [List.cons_append, scanString.eq_def]
    simp only [h1, h2, h4, if_false, ih htl]

/-- The characters of the patch text: the template with name and image spliced in. -/
theorem patchData_data (name image : String) :
    (patchData name image).data
      = '{' :: '"' :: 's' :: 'p' :: 'e' :: 'c' :: '"' :: ':' :: '{' :: '"' :: 'c' :: 'o' :: 'n'
        :: 't' :: 'a' :: 'i' :: 'n' :: 'e' :: 'r' :: 's' :: '"' :: ':' :: '[' :: '{' :: '"'
        :: 'n' :: 'a' :: 'm' :: 'e' :: '"' :: ':' :: '"' :: (name.data ++ '"' :: ',' :: '"'
        :: 'i' :: 'm' :: 'a' :: 'g' :: 'e' :: '"' :: ':' :: '"' :: (image.data ++ '"' :: '}'
        :: ']' :: '}' :: ['}'])) := by
  simp [patchData, String.data_append]

/-- A quoted run of characters that need no escape is read as that string. -/
theorem parseValue_string (k : Nat) (s rest : List Char) (h : s.all plainChar = true) :
    parseValue (k + 1) ('"' :: (s ++ '"' :: rest)) = some (.str (String.mk s), rest) := by
  simp [parseValue, skipWs, scanString_plain s rest h]

/-- The last member of an object: key, colon, value, closing brace. -/
theorem members_step (pv : List Char → Option (JValue × List Char)) (n : Nat)
    (key after : List Char) (v : JValue) (rest : List Char) (hk : key.all plainChar = true)
    (hv : pv after = some (v, '}' :: rest)) :
    parseMembers pv (n + 1) ('"' :: (key ++ '"' :: ':' :: after))
      = some ([(String.mk key, v)], rest) := by
  rw [parseMembers.eq_def]
  simp [skipWs, scanString_plain key _ hk, hv]

/-- The two members `name` and `image` of the container entry. -/
theorem inner_members (k n : Nat) (name image rest : List Char)
    (hn : name.all plainChar = true) (hi : image.all plainChar = true) :
    parseMembers (parseValue (k + 1)) (n + 2)
      ('"' :: 'n' :: 'a' :: 'm' :: 'e' :: '"' :: ':' :: '"' :: (name ++ '"' :: ',' :: '"'
        :: 'i' :: 'm' :: 'a' :: 'g' :: 'e' :: '"' :: ':' :: '"' :: (image ++ '"' :: '}' :: rest)))
      = some ([("name", .str (String.mk name)), ("image", .str (String.mk image))], rest) := by
  have hname := scanString_plain ['n', 'a', 'm', 'e'] (':' :: '"' :: (name ++ '"' :: ',' :: '"'
        :: 'i' :: 'm' :: 'a' :: 'g' :: 'e' :: '"' :: ':' :: '"' :: (image ++ '"' :: '}' :: rest)))
        (by decide)
  have himage := members_step (parseValue (k + 1)) n ['i', 'm', 'a', 'g', 'e']
    ('"' :: (image ++ '"' :: '}' :: rest)) (.str (String.mk image)) rest (by decide)
    (parseValue_string k image _ hi)
  simp only [List.cons_append, List.nil_append] at hname himage
  rw [parseMembers.eq_def]
  simp [skipWs, hname, himage, parseValue_string k name _ hn]

/-- An object with a single member. -/
theorem object_single (m : Nat) (key after : List Char) (v : JValue) (rest : List Char)
    (hk : key.all plainChar = true)
    (hv : parseValue (m + 1) after = some (v, '}' :: rest)) :
    parseValue (m + 2) ('{' :: '"' :: (key ++ '"' :: ':' :: after))
      = some (.obj [(String.mk key, v)], rest) := by
  rw [parseValue.eq_def]
  simp [skipWs, members_step (parseValue (m + 1)) m key after v rest hk hv]

/-- An array whose single element is an object. -/
theorem array_single (m : Nat) (after : List Char) (v : JValue) (rest : List Char)
    (hv : parseValue (m + 1) ('{' :: after) = some (v, ']' :: rest)) :
    parseValue (m + 2) ('[' :: '{' :: after) = some (.arr [v], rest) := by
  rw [parseValue.eq_def]
  simp only [skipWs]
  simp [parseElems, hv, skipWs]

/-- The container entry as an object. -/
theorem object_name_image (n : Nat) (name image rest : List Char)
    (hn : name.all plainChar = true) (hi : image.all plainChar = true) :
    parseValue (n + 3)
      ('{' :: '"' :: 'n' :: 'a' :: 'm' :: 'e' :: '"' :: ':' :: '"' :: (name ++ '"' :: ','
        :: '"' :: 'i' :: 'm' :: 'a' :: 'g' :: 'e' :: '"' :: ':' :: '"'
        :: (image ++ '"' :: '}' :: rest)))
      = some (.obj [("name", .str (String.mk name)), ("image", .str (String.mk image))],
          rest) := by
  rw [parseValue.eq_def]
  simp [skipWs, inner_members (n + 1) n name image rest hn hi]

/-- With enough fuel the whole patch text is read as the intended document, nothing left. -/
theorem patch_parses (n : Nat) (name image : String) (hn : plainText name = true)
    (hi : plainText image = true) :
    parseValue (n + 6) (patchData name image).data = some (intendedPatch name image, []) := by
  have h3 := object_name_image n name.data image.data (']' :: '}' :: ['}']) hn hi
  have h4 := array_single (n + 2) _ _ _ h3
  have h5 := object_single (n + 3) ['c', 'o', 'n', 't', 'a', 'i', 'n', 'e', 'r', 's'] _ _ _
    (by decide) h4
  have h6 := object_single (n + 4) ['s', 'p', 'e', 'c'] _ _ _ (by decide) h5
  rw [patchData_data]
  exact h6

/-- For a name and an image made of characters that need no JSON escape, the patch text
decodes to the intended document. -/
theorem patchData_decodes (name image : String) (hn : plainText name = true)
    (hi : plainText image = true) :
    decodeJSON (patchData name image) = some (intendedPatch name image) := by
  unfold decodeJSON
  obtain ⟨n, hlen⟩ : ∃ n, (patchData name image).data.length + 1 = n + 6 := by
    refine ⟨(patchData name image).data.length - 5, ?_⟩
    rw [patchData_data]
    simp only [List.length_cons, List.length_append]
    omega
  rw [hlen, patch_parses n name image hn hi]
  rfl

/-! ## Claims on the pod handlers -/

/-- C5 (counterexample): with an empty name and an empty namespace, `createPod` issues the
remote create call and answers 201, and the PUT handler issues the remote patch call and
answers 200: neither returns a validation error before the remote call. -/
theorem empty_name_reaches_remote :
    (createPod acceptAll (.ok ⟨"", "", "nginx"⟩)).calls
        = [.PodsCreate "" ⟨{ Name := "", Namespace := "" }, ⟨[⟨"", "nginx"⟩]⟩⟩] ∧
      (createPod acceptAll (.ok ⟨"", "", "nginx"⟩)).calls ≠ [] ∧
      (createPod acceptAll (.ok ⟨"", "", "nginx"⟩)).resp.status = 201 ∧
      (podPutHandler acceptAll "" "" (.ok ⟨"nginx"⟩)).calls
        = [.PodsPatch "" "" .StrategicMergePatchType (patchData "" "nginx")] ∧
      (podPutHandler acceptAll "" "" (.ok ⟨"nginx"⟩)).calls ≠ [] ∧
      (podPutHandler acceptAll "" "" (.ok ⟨"nginx"⟩)).resp.status = 200 := by
  refine ⟨?_, ?_, ?_, ?_, ?_, ?_⟩ <;> decide

/-- C5 (amended): no validation of name or namespace precedes the remote call. For every
bound request, empty fields included, `createPod` issues exactly one remote create call in
the request's namespace and the PUT handler exactly one remote patch call for the given
namespace and name, and the answer is the remote's outcome (201, resp. 200, with the pod,
or 500 with the remote's message). Only a body that fails to bind is rejected before any
remote call (400, no call issued). -/
theorem no_validation_before_remote (cs : Clientset) (pod : Pod) (name ns : String)
    (body : PodImage) (err : String) :
    (createPod cs (.ok pod)).calls
        = [.PodsCreate pod.Namespace
            ⟨{ Name := pod.Name, Namespace := pod.Namespace }, ⟨[⟨pod.Name, pod.Image⟩]⟩⟩] ∧
      (createPod cs (.ok pod)).resp
        = (match cs.PodsCreate pod.Namespace
              ⟨{ Name := pod.Name, Namespace := pod.Namespace }, ⟨[⟨pod.Name, pod.Image⟩]⟩⟩ with
            | .ok result => ⟨201, .pod result⟩
            | .error msg => ⟨500, .text msg⟩) ∧
      (podPutHandler cs name ns (.ok body)).calls
        = [.PodsPatch ns name .StrategicMergePatchType (patchData name body.Image)] ∧
      (podPutHandler cs name ns (.ok body)).resp
        = (match cs.PodsPatch ns name .StrategicMergePatchType (patchData name body.Image) with
            | .ok result => ⟨200, .pod result⟩
            | .error msg => ⟨500, .text msg⟩) ∧
      createPod cs (.error err) = ⟨⟨400, .text err⟩, []⟩ ∧
      podPutHandler cs name ns (.error err) = ⟨⟨400, .text err⟩, []⟩ := by
  refine ⟨?_, ?_, ?_, ?_, rfl, rfl⟩
  · simp only [createPod]
    cases cs.PodsCreate pod.Namespace
      ⟨{ Name := pod.Name, Namespace := pod.Namespace }, ⟨[⟨pod.Name, pod.Image⟩]⟩⟩ <;> rfl
  · simp only [createPod]
    cases cs.PodsCreate pod.Namespace
      ⟨{ Name := pod.Name, Namespace := pod.Namespace }, ⟨[⟨pod.Name, pod.Image⟩]⟩⟩ <;> rfl
  · simp only [podPutHandler]
    cases cs.PodsPatch ns name .StrategicMergePatchType (patchData name body.Image) <;> rfl
  · simp only [podPutHandler]
    cases cs.PodsPatch ns name .StrategicMergePatchType (patchData name body.Image) <;> rfl

/-- C6 (the code departs from the claim): the patch text is the template with the name and
the image inserted unescaped. For the name consisting of one double quote, and for a name
ending in a backslash, the text is not well-formed JSON; for an image that contains quotes
the text is well-formed but its container entry carries the further fields `command` and
`x`, so it is not the intended document. The two malformed texts are rejected whatever
fuel the decoder is given. For the name web and the image nginx the text decodes to the
intended document. -/
theorem patch_text_inserts_unescaped :
    decodeJSON (patchData "\"" "nginx") = none ∧
      decodeJSON (patchData "web\\" "nginx") = none ∧
      (∀ fuel : Nat, parseValue fuel (patchData "\"" "nginx").data = none) ∧
      (∀ fuel : Nat, parseValue fuel (patchData "web\\" "nginx").data = none) ∧
      decodeJSON (patchData "web" "nginx\",\"command\":[\"sh\"],\"x\":\"")
        = some (.obj [("spec", .obj [("containers", .arr [.obj
            [("name", .str "web"), ("image", .str "nginx"),
              ("command", .arr [.str "sh"]), ("x", .str "")]])])]) ∧
      decodeJSON (patchData "web" "nginx\",\"command\":[\"sh\"],\"x\":\"")
        ≠ some (intendedPatch "web" "nginx\",\"command\":[\"sh\"],\"x\":\"") ∧
      decodeJSON (patchData "web" "nginx") = some (intendedPatch "web" "nginx") := by
  refine ⟨by rfl, by rfl, ?_, ?_, by rfl, ?_, by rfl⟩
  · intro fuel
    match fuel with
    | 0 => rfl
    | 1 => rfl
    | 2 => rfl
    | 3 => rfl
    | 4 => rfl
    | n + 5 => rfl
  · intro fuel
    match fuel with
    | 0 => rfl
    | 1 => rfl
    | 2 => rfl
    | 3 => rfl
    | 4 => rfl
    | n + 5 => rfl
  have h : decodeJSON (patchData "web" "nginx\",\"command\":[\"sh\"],\"x\":\"")
      = some (.obj [("spec", .obj [("containers", .arr [.obj
          [("name", .str "web"), ("image", .str "nginx"),
            ("command", .arr [.str "sh"]), ("x", .str "")]])])]) := by rfl
  rw [h]
  simp [intendedPatch]

/-- C7: the DELETE handler issues exactly one remote delete call; it answers 204 without a
body exactly when that call succeeded, and when the call failed with a message it answers
500 with that message as its body. -/
theorem delete_reports_remote_outcome (cs : Clientset) (name ns : String) :
    (podDeleteHandler cs name ns).calls = [.PodsDelete ns name] ∧
      ((podDeleteHandler cs name ns).resp = ⟨204, .none⟩ ↔ cs.PodsDelete ns name = .ok ()) ∧
      (∀ msg, cs.PodsDelete ns name = .error msg →
        (podDeleteHandler cs name ns).resp = ⟨500, .text msg⟩) := by
  unfold podDeleteHandler
  cases h : cs.PodsDelete ns name with
  | error m =>
    refine ⟨rfl, ⟨fun hr => ?_, fun hr => ?_⟩, ?_⟩
    · cases hr
    · cases hr
    · intro msg hm
      cases hm
      rfl
  | ok u =>
    refine ⟨rfl, ⟨fun _ => rfl, fun _ => rfl⟩, ?_⟩
    intro msg hm
    cases hm

/-- Witness for C7: deleting a pod the remote does not know yields 500 with the remote's
"not found" message. -/
theorem delete_reports_remote_outcome_witness :
    noPods.PodsDelete "default" "ghost" = .error "pods \"ghost\" not found" ∧
      (podDeleteHandler noPods "ghost" "default").resp
        = ⟨500, .text "pods \"ghost\" not found"⟩ :=
  ⟨rfl,
    (delete_reports_remote_outcome noPods "ghost" "default").2.2
      "pods \"ghost\" not found" rfl⟩

/-- C8 (the code departs from the claim in `pod.go`): `createPod` of `main.go` submits, in
the request's namespace, a pod with the request's name and namespace and exactly one
container carrying the request's name and image; the POST closure of `pod.go` submits for
the request web, default, nginx a pod with no container at all. -/
theorem pod_go_create_submits_no_container :
    (∀ (cs : Clientset) (pod : Pod),
        (createPod cs (.ok pod)).calls
          = [.PodsCreate pod.Namespace
              ⟨{ Name := pod.Name, Namespace := pod.Namespace },
                ⟨[⟨pod.Name, pod.Image⟩]⟩⟩]) ∧
      (podPostHandler acceptAll (.ok ⟨"web", "default", "nginx"⟩)).calls
        = [.PodsCreate "default" ⟨{ Name := "web", Namespace := "default" }, ⟨[]⟩⟩] := by
  refine ⟨?_, by decide⟩
  intro cs pod
  simp only [createPod]
  cases cs.PodsCreate pod.Namespace
    ⟨{ Name := pod.Name, Namespace := pod.Namespace }, ⟨[⟨pod.Name, pod.Image⟩]⟩⟩ <;> rfl

/-- C9: for every request and call time, `updatePod` submits in the request's namespace a
pod with no exact name, generate-name the request's name followed by a hyphen, the
request's namespace, the labels app (the request's name) and role (web), the annotations
createdBy and createdAt (the call time in RFC3339 format) and no container. -/
theorem updatePod_descriptor {Time : Type} (rfc3339 : Time → String) (now : Time)
    (cs : Clientset) (pod : Pod) :
    (updatePod rfc3339 now cs (.ok pod)).calls
        = [.PodsCreate pod.Namespace (updatePodObject rfc3339 now pod)] ∧
      (updatePodObject rfc3339 now pod).Meta.Name = "" ∧
      (updatePodObject rfc3339 now pod).Meta.GenerateName = pod.Name ++ "-" ∧
      (updatePodObject rfc3339 now pod).Meta.Namespace = pod.Namespace ∧
      (updatePodObject rfc3339 now pod).Meta.Labels = [("app", pod.Name), ("role", "web")] ∧
      (updatePodObject rfc3339 now pod).Meta.Annotations
        = [("createdBy", "Bing"), ("createdAt", rfc3339 now)] ∧
      ((updatePodObject rfc3339 now pod).Meta.Annotations.map Prod.fst)
        = ["createdBy", "createdAt"] ∧
      (updatePodObject rfc3339 now pod).Spec.Containers = [] := by
  refine ⟨?_, rfl, rfl, rfl, rfl, rfl, rfl, rfl⟩
  simp only [updatePod]
  cases cs.PodsCreate pod.Namespace (updatePodObject rfc3339 now pod) <;> rfl

end KubeDashboard
